import Mathlib

/-!
Verification development for the kid-cosmo repository.

Shallow embedding of:
- `src/runtime/reasoning_agent.py` (`ReasoningAgent`): manifest generation,
  canonical JSON serialization with sorted keys, SHA-256 proof field,
  deterministic fallback reasoning payload;
- `src/integration/ardupilot/scripts/mavlink_bridge.py` (`MAVLinkBridge`):
  heartbeat/blackout state machine, telemetry snapshot;
- `src/integration/ardupilot/scripts/sovereign_pilot.py` (`SovereignPilot`):
  decision loop with cooldown gating and the command translator
  `execute_decision`.

Python floats (wall-clock times, telemetry values) are modelled as rationals
(`ℚ`); machine behaviour of IEEE floats is not relied on by any claim, only
ordered-field comparisons with the literal thresholds 3.0 / 5.0 / 10.0.
Strings are modelled as Lean `String` / `List Char`; all payloads of the
program are ASCII.
-/

namespace KidCosmo

/-! ## Executable rational comparisons

The Python sources compare float differences against literal thresholds
(`time.time() - self.last_heartbeat > 3.0`).  Over `ℚ` the same comparison
`now - last > c` is expressed on numerators and denominators by
cross-multiplication, so that the model evaluates by kernel reduction on
concrete inputs.  `gapGtB_iff` proves it is exactly the source comparison. -/

/-- Boolean test for `now - last > c` on rationals, computed on numerator and
denominator projections (no rational arithmetic), hence kernel-reducible. -/
def gapGtB (now last c : ℚ) : Bool :=
  decide (c.num * ((now.den : ℤ) * (last.den : ℤ)) <
    (now.num * (last.den : ℤ) - last.num * (now.den : ℤ)) * (c.den : ℤ))

/-- Boolean test for `now - last ≤ c` (the negation of `gapGtB`). -/
def gapLeB (now last c : ℚ) : Bool := ! gapGtB now last c

/-! ## String machinery

Structural (kernel-reducible) models of the Python string operations used by
the sources: `.upper()`, the `in` substring test, `.split(sep)`, `.split()`,
`.strip()`, `.isdigit()`, `int(...)` on a digit string.  All inputs of the
program are ASCII, for which these agree with CPython's semantics. -/

/-- Model of Python `str.upper` on one ASCII character. -/
def pyUpperChar (c : Char) : Char :=
  if 'a' ≤ c ∧ c ≤ 'z' then Char.ofNat (c.toNat - 32) else c

/-- Model of Python `str.upper` (ASCII). -/
def pyUpper (l : List Char) : List Char := l.map pyUpperChar

/-- Whether `needle` occurs at the start of `hay`. -/
def isPrefixL : List Char → List Char → Bool
  | [], _ => true
  | _ :: _, [] => false
  | a :: as, b :: bs => a == b && isPrefixL as bs

/-- Model of Python's `needle in hay` substring test. -/
def containsSeq (needle : List Char) : List Char → Bool
  | [] => isPrefixL needle []
  | c :: cs => isPrefixL needle (c :: cs) || containsSeq needle cs

/-- Model of Python `hay.split(sep)` for a non-empty `sep`: non-overlapping
left-to-right splitting, keeping empty pieces.  Fuel-based structural
recursion; `fuel = hay.length + 1` always suffices. -/
def splitSepFuel (sep : List Char) : Nat → List Char → List Char → List (List Char)
  | 0, rest, acc => [acc.reverse ++ rest]
  | _ + 1, [], acc => [acc.reverse]
  | fuel + 1, c :: cs, acc =>
    if isPrefixL sep (c :: cs) then
      acc.reverse :: splitSepFuel sep fuel (cs.drop (sep.length - 1)) []
    else
      splitSepFuel sep fuel cs (c :: acc)

/-- Model of Python `hay.split(sep)` (with non-empty `sep`). -/
def pySplitSep (hay sep : List Char) : List (List Char) :=
  splitSepFuel sep (hay.length + 1) hay []

/-- Model of Python `hay.split(sep)[-1]` : the text after the last
(non-overlapping) occurrence of `sep`, or all of `hay` if `sep` is absent. -/
def afterLastSep (hay sep : List Char) : List Char :=
  ((pySplitSep hay sep).getLast?).getD []

/-- Model of Python `str.strip()` (whitespace on both ends). -/
def pyStrip (l : List Char) : List Char :=
  ((l.dropWhile Char.isWhitespace).reverse.dropWhile Char.isWhitespace).reverse

/-- Model of Python `str.split()` (split on whitespace runs, no empties). -/
def splitWsAux : List Char → List Char → List (List Char)
  | [], acc => if acc.isEmpty then [] else [acc.reverse]
  | c :: cs, acc =>
    if c.isWhitespace then
      (if acc.isEmpty then splitWsAux cs [] else acc.reverse :: splitWsAux cs [])
    else splitWsAux cs (c :: acc)

/-- Model of Python `str.split()` with no argument. -/
def pySplitWs (l : List Char) : List (List Char) := splitWsAux l []

/-- Model of Python `str.isdigit()` (ASCII digits). -/
def isDigitsL (l : List Char) : Bool := !l.isEmpty && l.all Char.isDigit

/-- Model of Python `int(s)` for a string of ASCII digits. -/
def digitsToNat (l : List Char) : Nat := l.foldl (fun a c => a * 10 + (c.toNat - 48)) 0

/-! ## JSON values and Python's `json.dumps(..., sort_keys=True)`

The manifest is a Python dict serialized by `json.dumps(manifest,
sort_keys=True)` (default separators `", "` / `": "`, no indent).  `Json`
models the values that occur; `jsonDumpsSorted` models the serialization
(recursively key-sorted, ASCII payloads). -/

inductive Json where
  | null
  | bool (b : Bool)
  | int (n : ℤ)
  | float (q : ℚ)
  | str (s : String)
  | arr (elems : List Json)
  | obj (fields : List (String × Json))

/-- Lexicographic code-point comparison of char lists (Python `str` order). -/
def charListLe : List Char → List Char → Bool
  | [], _ => true
  | _ :: _, [] => false
  | a :: as, b :: bs => if a < b then true else if b < a then false else charListLe as bs

/-- Python string `≤` (code-point lexicographic). -/
def strLeB (a b : String) : Bool := charListLe a.data b.data

/-- Insert one key-value pair into a key-sorted list. -/
def insortEntry (p : String × Json) : List (String × Json) → List (String × Json)
  | [] => [p]
  | q :: qs => if strLeB p.1 q.1 then p :: q :: qs else q :: insortEntry p qs

/-- Sort object entries by key (Python `sort_keys=True` at one level). -/
def sortEntries (es : List (String × Json)) : List (String × Json) :=
  es.foldr insortEntry []

mutual

/-- Recursively sort every object's keys (the effect of `sort_keys=True`). -/
def sortJson : Json → Json
  | .obj fields => .obj (sortEntries (sortJsonFields fields))
  | .arr elems => .arr (sortJsonElems elems)
  | j => j

def sortJsonElems : List Json → List Json
  | [] => []
  | x :: xs => sortJson x :: sortJsonElems xs

def sortJsonFields : List (String × Json) → List (String × Json)
  | [] => []
  | (k, v) :: fs => (k, sortJson v) :: sortJsonFields fs

end

/-- One hexadecimal digit as a string (lowercase). -/
def hexChar (n : Nat) : String :=
  String.singleton (if n < 10 then Char.ofNat (48 + n) else Char.ofNat (87 + n))

/-- JSON string escaping of one character (CPython `json.dumps` for ASCII). -/
def escChar (c : Char) : String :=
  if c = '"' then "\\\""
  else if c = '\\' then "\\\\"
  else if c = '\n' then "\\n"
  else if c = '\t' then "\\t"
  else if c = '\r' then "\\r"
  else if c.toNat = 8 then "\\b"
  else if c.toNat = 12 then "\\f"
  else if c.toNat < 32 then "\\u00" ++ hexChar (c.toNat / 16) ++ hexChar (c.toNat % 16)
  else String.singleton c

/-- JSON serialization of a string value, quotes included. -/
def serStr (s : String) : String :=
  "\"" ++ String.join (s.data.map escChar) ++ "\""

/-- Decimal representation of an integer. -/
def intRepr (n : ℤ) : String :=
  match n with
  | .ofNat m => Nat.repr m
  | .negSucc m => "-" ++ Nat.repr (m + 1)

/-- Left-pad a digit string with zeros to width `k`. -/
def padZerosTo (k : Nat) (s : String) : String :=
  String.mk (List.replicate (k - s.length) '0') ++ s

/-- Smallest `k ≤ 1100` with `den ∣ 10 ^ k`.  Every Python float has a dyadic
denominator `2 ^ a` with `a ≤ 1074`, so the bound is never hit for values the
program produces. -/
def decExpOf (den : Nat) : Option Nat :=
  (List.range 1100).find? (fun k => 10 ^ k % den == 0)

/-- Decimal rendering of a float value as CPython `repr` prints it for the
finitely-rendered floats the program produces (`0.85` → `"0.85"`,
`5.0` → `"5.0"`). -/
def floatRepr (q : ℚ) : String :=
  let sign := if q.num < 0 then "-" else ""
  let n := q.num.natAbs
  match decExpOf q.den with
  | none => sign ++ Nat.repr n ++ "/" ++ Nat.repr q.den
  | some k =>
    let m := n * (10 ^ k / q.den)
    if k = 0 then sign ++ Nat.repr m ++ ".0"
    else sign ++ Nat.repr (m / 10 ^ k) ++ "." ++ padZerosTo k (Nat.repr (m % 10 ^ k))

/-- Join strings with a separator (Python `sep.join`). -/
def joinSep (sep : String) : List String → String
  | [] => ""
  | [x] => x
  | x :: xs => x ++ sep ++ joinSep sep xs

mutual

/-- Serialize a (pre-sorted) JSON value with CPython's default separators
`", "` and `": "`. -/
def serJson : Json → String
  | .null => "null"
  | .bool true => "true"
  | .bool false => "false"
  | .int n => intRepr n
  | .float q => floatRepr q
  | .str s => serStr s
  | .arr elems => "[" ++ joinSep ", " (serJsonElems elems) ++ "]"
  | .obj fields => "\x7b" ++ joinSep ", " (serJsonFields fields) ++ "\x7d"

def serJsonElems : List Json → List String
  | [] => []
  | x :: xs => serJson x :: serJsonElems xs

def serJsonFields : List (String × Json) → List String
  | [] => []
  | (k, v) :: fs => (serStr k ++ ": " ++ serJson v) :: serJsonFields fs

end

/-- Model of `json.dumps(value, sort_keys=True)`. -/
def jsonDumpsSorted (j : Json) : String := serJson (sortJson j)

/-- Look up a key in a JSON object (Python `d[k]` for dicts,
first occurrence). -/
def jsonGet (j : Json) (key : String) : Option Json :=
  match j with
  | .obj fields => (fields.find? (fun kv => kv.1 == key)).map (fun kv => kv.2)
  | _ => none

/-! ## SHA-256 (`hashlib.sha256(...).hexdigest()`)

Executable model of the FIPS 180-4 SHA-256 function over byte lists, used by
`generate_manifest` for the `sha256_proof` field.  Words are naturals reduced
mod `2 ^ 32`. -/

/-- Truncate to a 32-bit word. -/
def w32 (n : Nat) : Nat := n % 4294967296

/-- Rotate a 32-bit word right by `r`. -/
def rotr32 (r x : Nat) : Nat :=
  w32 (Nat.lor (Nat.shiftRight x r) (Nat.shiftLeft x (32 - r)))

/-- Three-way xor. -/
def xor3 (a b c : Nat) : Nat := Nat.xor (Nat.xor a b) c

/-- SHA-256 Σ₀. -/
def compSig0 (x : Nat) : Nat := xor3 (rotr32 2 x) (rotr32 13 x) (rotr32 22 x)

/-- SHA-256 Σ₁. -/
def compSig1 (x : Nat) : Nat := xor3 (rotr32 6 x) (rotr32 11 x) (rotr32 25 x)

/-- SHA-256 σ₀. -/
def schedSig0 (x : Nat) : Nat := xor3 (rotr32 7 x) (rotr32 18 x) (Nat.shiftRight x 3)

/-- SHA-256 σ₁. -/
def schedSig1 (x : Nat) : Nat := xor3 (rotr32 17 x) (rotr32 19 x) (Nat.shiftRight x 10)

/-- SHA-256 Ch. -/
def chFn (x y z : Nat) : Nat := Nat.xor (Nat.land x y) (Nat.land (Nat.xor x 4294967295) z)

/-- SHA-256 Maj. -/
def majFn (x y z : Nat) : Nat := xor3 (Nat.land x y) (Nat.land x z) (Nat.land y z)

/-- The 64 SHA-256 round constants (FIPS 180-4, written in decimal). -/
def sha256K : List Nat :=
  [1116352408, 1899447441, 3049323471, 3921009573, 961987163,
   1508970993, 2453635748, 2870763221, 3624381080, 310598401,
   607225278, 1426881987, 1925078388, 2162078206, 2614888103,
   3248222580, 3835390401, 4022224774, 264347078, 604807628,
   770255983, 1249150122, 1555081692, 1996064986, 2554220882,
   2821834349, 2952996808, 3210313671, 3336571891, 3584528711,
   113926993, 338241895, 666307205, 773529912, 1294757372,
   1396182291, 1695183700, 1986661051, 2177026350, 2456956037,
   2730485921, 2820302411, 3259730800, 3345764771, 3516065817,
   3600352804, 4094571909, 275423344, 430227734, 506948616,
   659060556, 883997877, 958139571, 1322822218, 1537002063,
   1747873779, 1955562222, 2024104815, 2227730452, 2361852424,
   2428436474, 2756734187, 3204031479, 3329325298]

/-- The SHA-256 initial hash state (FIPS 180-4, written in decimal). -/
def sha256H0 : List Nat :=
  [1779033703, 3144134277, 1013904242, 2773480762,
   1359893119, 2600822924, 528734635, 1541459225]

/-- Big-endian bytes of `n`, `k` bytes wide. -/
def toBytesBE : Nat → Nat → List Nat
  | 0, _ => []
  | k + 1, n => toBytesBE k (n / 256) ++ [n % 256]

/-- SHA-256 padding: `0x80`, zeros to 56 mod 64, then the 64-bit bit length. -/
def sha256pad (msg : List Nat) : List Nat :=
  let padZeros := (119 - msg.length % 64) % 64
  msg ++ [128] ++ List.replicate padZeros 0 ++ toBytesBE 8 (msg.length * 8)

/-- Pack bytes into big-endian 32-bit words. -/
def bytesToWords : List Nat → List Nat
  | b0 :: b1 :: b2 :: b3 :: rest => (((b0 * 256 + b1) * 256 + b2) * 256 + b3) :: bytesToWords rest
  | _ => []

/-- Extend a 16-word block to the 64-word message schedule. -/
def sha256schedule (block : List Nat) : Array Nat :=
  (List.range 48).foldl
    (fun w i =>
      w.push (w32 (schedSig1 (w.getD (i + 14) 0) + w.getD (i + 9) 0 + schedSig0 (w.getD (i + 1) 0) + w.getD i 0)))
    block.toArray

/-- One SHA-256 compression round. -/
def sha256round (w : Array Nat) (s : List Nat) (i : Nat) : List Nat :=
  match s with
  | [a, b, c, d, e, f, g, h] =>
    let t1 := w32 (h + compSig1 e + chFn e f g + sha256K.getD i 0 + w.getD i 0)
    let t2 := w32 (compSig0 a + majFn a b c)
    [w32 (t1 + t2), a, b, c, w32 (d + t1), e, f, g]
  | s => s

/-- Compress one 16-word block into the running hash state. -/
def sha256compress (h : List Nat) (block : List Nat) : List Nat :=
  let w := sha256schedule block
  let final := (List.range 64).foldl (sha256round w) h
  match h, final with
  | [h0, h1, h2, h3, h4, h5, h6, h7], [a, b, c, d, e, f, g, hh] =>
    [w32 (h0 + a), w32 (h1 + b), w32 (h2 + c), w32 (h3 + d),
     w32 (h4 + e), w32 (h5 + f), w32 (h6 + g), w32 (h7 + hh)]
  | _, _ => h

/-- Fold the compression function over `n` consecutive blocks. -/
def sha256blocks : Nat → List Nat → List Nat → List Nat
  | 0, h, _ => h
  | n + 1, h, words => sha256blocks n (sha256compress h (words.take 16)) (words.drop 16)

/-- SHA-256 digest (32 bytes) of a byte list. -/
def sha256 (msg : List Nat) : List Nat :=
  let words := bytesToWords (sha256pad msg)
  let h := sha256blocks (words.length / 16) sha256H0 words
  h.foldr (fun x acc => toBytesBE 4 x ++ acc) []

/-- Hex digits of one byte. -/
def byteToHex (b : Nat) : String := hexChar (b / 16) ++ hexChar (b % 16)

/-- Lowercase hex digest of a byte list (`hashlib.sha256(bs).hexdigest()`). -/
def sha256hexBytes (msg : List Nat) : String :=
  String.join ((sha256 msg).map byteToHex)

/-- UTF-8 bytes of an ASCII string (`str.encode()`; all program payloads are
ASCII, for which UTF-8 bytes are the code points). -/
def strBytes (s : String) : List Nat := s.data.map Char.toNat

/-- Model of `hashlib.sha256(s.encode()).hexdigest()`. -/
def sha256hex (s : String) : String := sha256hexBytes (strBytes s)

/-! ## `ReasoningAgent` (`src/runtime/reasoning_agent.py`)

`generate_manifest` assembles the manifest dict, serializes it with
`json.dumps(manifest, sort_keys=True)` while `sha256_proof` is the empty
string, then stores `hashlib.sha256(manifest_str.encode()).hexdigest()` into
`sha256_proof` and returns the manifest.

The optional mlx_lm inference call is an external library (absent import,
model loading, token generation); its outcome enters the model as an
`InferenceOutcome` parameter mirroring the branch structure of the code. -/

/-- Outcome of the optional mlx_lm inference path inside `generate_manifest`:
`backendUnavailable` models `HAS_MLX` false or `is_loaded` remaining false
after `_load_model`; `inferenceError` models the `except` arm around
`generate` (an `MLX Inference Error`); `parseError` models a response that
fails `json.loads`; `parsed payload` models a successfully parsed response. -/
inductive InferenceOutcome where
  | backendUnavailable
  | inferenceError
  | parseError
  | parsed (payload : Json)

/-- The manifest dict built by `generate_manifest`, with its fields in the
source's insertion order. -/
structure Manifest where
  mission_id : String
  environment : String
  timestamp : String
  is_dark_window : Bool
  telemetry_ref : String
  epistemic_status : String
  agent_reasoning : Json
  trajectory_context : Json
  sha256_proof : String

/-- The manifest as a JSON object, keys in the source's insertion order
(serialization sorts them). -/
def manifestToJson (m : Manifest) : Json :=
  .obj [("mission_id", .str m.mission_id),
        ("environment", .str m.environment),
        ("timestamp", .str m.timestamp),
        ("is_dark_window", .bool m.is_dark_window),
        ("telemetry_ref", .str m.telemetry_ref),
        ("epistemic_status", .str m.epistemic_status),
        ("agent_reasoning", m.agent_reasoning),
        ("trajectory_context", m.trajectory_context),
        ("sha256_proof", .str m.sha256_proof)]

/-- Model of `ReasoningAgent._generate_fallback_reasoning(anomaly,
isolation)`: the deterministic payload substituted whenever inference is
unavailable or fails. -/
def fallbackReasoning (anomaly : String) (isolation : Bool) : Json :=
  let context_str := if isolation then "Isolated (Dark Window)" else "Nominal Link"
  .obj [
    ("sensory_synthesis", .obj [
      ("inputs", .arr [.str "ANOMALY_DETECTED", .str "TELEMETRY_VARIANCE_HIGH",
                       .str (if isolation then "LINK_STATUS_BLACKOUT" else "LINK_STABLE")]),
      ("interpretation", .str ("[" ++ context_str ++ "] System detecting non-nominal state: "
        ++ anomaly ++ ". Sensors reporting divergence from expected trajectory."))]),
    ("cognitive_load", .float (85/100)),
    ("internal_deliberation", .arr [
      .obj [
        ("thought", .str ("Trajectory exceeds 2-sigma deviation. "
          ++ (if isolation then "No external link available." else "")
          ++ " Parameters may be compromised.")),
        ("confidence", .float (90/100)),
        ("action_rejected", .str "MAINTAIN_CURRENT_ATTITUDE")]]),
    ("mission_assurance_check", .obj [
      ("risk_level", .str "HIGH"),
      ("failure_mode_prediction", .str "Potential uncontrolled drift or system degradation."),
      ("mitigation_strategy", .str "Engage stabilization. Prioritize power conservation.")]),
    ("decision", .obj [
      ("actuator_command", .str "HOLD_POSITION"),
      ("expected_outcome", .str "Maintain stability and wait for conditions to improve.")]),
    ("self_reflection", .str ("Operating in "
      ++ (if isolation then "epistemic isolation" else "degraded mode")
      ++ ". Physical intuition suggests conservative action."))]

/-- Model of `ReasoningAgent.generate_manifest`.  `timestamp` stands for
`datetime.utcnow().isoformat() + "Z"` (wall clock), `outcome` for the result
of the optional inference path; `telemetry_snapshot` is used by the source
only inside the inference prompt, never in the manifest itself. -/
def generate_manifest (outcome : InferenceOutcome) (timestamp : String)
    (mission_id : String) (environment : String) (telemetry_snapshot : Json)
    (anomaly_description : String) (epistemic_isolation : Bool)
    (trajectory_context : Option Json) : Manifest :=
  let reasoning_data :=
    match outcome with
    | .parsed payload => payload
    | _ => fallbackReasoning anomaly_description epistemic_isolation
  let manifest : Manifest := {
    mission_id := mission_id
    environment := environment
    timestamp := timestamp
    is_dark_window := epistemic_isolation
    telemetry_ref := mission_id ++ "_telemetry.json"
    epistemic_status := if epistemic_isolation then "503_BLACKOUT" else "NOMINAL_LINK"
    agent_reasoning := reasoning_data
    trajectory_context := trajectory_context.getD (.obj [])
    sha256_proof := "" }
  let manifest_str := jsonDumpsSorted (manifestToJson manifest)
  { manifest with sha256_proof := sha256hex manifest_str }

/-- Clear the proof field, as a verifier must before re-serializing
(spec §4.4: "repeat steps 1-3 with the stored proof cleared"). -/
def clearProof (m : Manifest) : Manifest := { m with sha256_proof := "" }

/-- The canonical serialization of a manifest: key-sorted `json.dumps`. -/
def canonicalSerialization (m : Manifest) : String :=
  jsonDumpsSorted (manifestToJson m)

/-- Recompute the proof of a manifest the way an external verifier must:
clear `sha256_proof`, serialize canonically, hash. -/
def recomputeProof (m : Manifest) : String :=
  sha256hex (canonicalSerialization (clearProof m))

/-! ## `MAVLinkBridge` (`src/integration/ardupilot/scripts/mavlink_bridge.py`)

Wall-clock instants (`time.time()`) enter the model as `ℚ` parameters.  A
call to `update` is modelled with at most one inbound message (the source's
`recv_match(blocking=False)` yields one message or `None`). -/

/-- The `self.telemetry` dict of the bridge. -/
structure Telemetry where
  mode : String
  gps_fix : ℤ
  sat_count : ℤ
  battery_v : ℚ
  battery_pct : ℤ
  pitch : ℚ
  roll : ℚ
  yaw : ℚ
  alt : ℚ

/-- Initial telemetry values from `MAVLinkBridge.__init__`. -/
def initTelemetry : Telemetry :=
  { mode := "UNKNOWN", gps_fix := 0, sat_count := 0, battery_v := 0, battery_pct := 0,
    pitch := 0, roll := 0, yaw := 0, alt := 0 }

/-- The mutable state of a `MAVLinkBridge`. -/
structure MAVLinkBridge where
  last_heartbeat : ℚ
  telemetry : Telemetry
  is_blackout : Bool

/-- `MAVLinkBridge.__init__`: `last_heartbeat = 0`, default telemetry,
`is_blackout = False`. -/
def initBridge : MAVLinkBridge :=
  { last_heartbeat := 0, telemetry := initTelemetry, is_blackout := false }

/-- Inbound MAVLink messages, carrying exactly the fields the bridge reads;
`other` stands for any message type the bridge ignores. -/
inductive MavMsg where
  | heartbeat (custom_mode : Nat)
  | sys_status (voltage_battery : ℤ) (battery_remaining : ℤ)
  | gps_raw_int (fix_type : ℤ) (satellites_visible : ℤ)
  | attitude (pitch roll yaw : ℚ)
  | vfr_hud (alt : ℚ)
  | other

/-- Modelled from the external pymavlink library: `mavutil.mode_mapping_acm`,
the ArduCopter custom-mode-number → name table (entries relevant here; the
bridge only calls `.get(custom_mode, "UNKNOWN")` on it). -/
def mode_mapping_acm (custom_mode : Nat) : Option String :=
  match custom_mode with
  | 0 => some "STABILIZE"
  | 2 => some "ALT_HOLD"
  | 5 => some "LOITER"
  | 6 => some "RTL"
  | 9 => some "LAND"
  | _ => none

/-- Model of `MAVLinkBridge.update` at wall-clock `now`: first the heartbeat
timeout check (`now - last_heartbeat > 3.0` sets `is_blackout = True`; the
source guards the assignment with `if not self.is_blackout`, which has the
same resulting state), then processing of the received message, if any. -/
def update (now : ℚ) (msg : Option MavMsg) (b : MAVLinkBridge) : MAVLinkBridge :=
  let b1 := if gapGtB now b.last_heartbeat 3 then { b with is_blackout := true } else b
  match msg with
  | none => b1
  | some (.heartbeat custom_mode) =>
    { b1 with last_heartbeat := now, is_blackout := false,
              telemetry := { b1.telemetry with
                mode := (mode_mapping_acm custom_mode).getD "UNKNOWN" } }
  | some (.sys_status voltage_battery battery_remaining) =>
    { b1 with telemetry := { b1.telemetry with
        battery_v := (voltage_battery : ℚ) / 1000, battery_pct := battery_remaining } }
  | some (.gps_raw_int fix_type satellites_visible) =>
    { b1 with telemetry := { b1.telemetry with
        gps_fix := fix_type, sat_count := satellites_visible } }
  | some (.attitude pitch roll yaw) =>
    { b1 with telemetry := { b1.telemetry with pitch := pitch, roll := roll, yaw := yaw } }
  | some (.vfr_hud alt) =>
    { b1 with telemetry := { b1.telemetry with alt := alt } }
  | some .other => b1

/-- Model of `MAVLinkBridge.wait_for_heartbeat` returning at time `now` (the
blocking `master.wait_heartbeat()` has just seen a heartbeat): stamps
`last_heartbeat`; `is_blackout` is not touched. -/
def wait_for_heartbeat (now : ℚ) (b : MAVLinkBridge) : MAVLinkBridge :=
  { b with last_heartbeat := now }

/-- Python banker's rounding of a rational to an integer. -/
def roundHalfEven (q : ℚ) : ℤ :=
  let f := ⌊q⌋
  let r := q - (f : ℚ)
  if r < 1/2 then f
  else if 1/2 < r then f + 1
  else if f % 2 = 0 then f else f + 1

/-- Model of Python `round(x, d)`. -/
def pyRound (x : ℚ) (d : Nat) : ℚ := (roundHalfEven (x * 10 ^ d) : ℚ) / 10 ^ d

/-- The `status` sub-dict of a snapshot. -/
structure SnapshotStatus where
  mode : String
  battery : ℤ
  voltage : ℚ

/-- The `attitude` sub-dict of a snapshot. -/
structure SnapshotAttitude where
  p : ℚ
  r : ℚ
  y : ℚ

/-- The `perception` sub-dict of a snapshot. -/
structure SnapshotPerception where
  gps_fix : ℤ
  sats : ℤ
  attitude : SnapshotAttitude
  alt : ℚ

/-- The dict returned by `MAVLinkBridge.get_snapshot`. -/
structure Snapshot where
  t : ℚ
  status : SnapshotStatus
  perception : SnapshotPerception
  is_blackout : Bool

/-- Model of `MAVLinkBridge.get_snapshot` at wall-clock `now`: a pure read of
the bridge state (plus rounding); it performs no timeout check. -/
def get_snapshot (now : ℚ) (b : MAVLinkBridge) : Snapshot :=
  { t := pyRound now 3
    status := { mode := b.telemetry.mode, battery := b.telemetry.battery_pct,
                voltage := b.telemetry.battery_v }
    perception := { gps_fix := b.telemetry.gps_fix, sats := b.telemetry.sat_count,
                    attitude := { p := pyRound b.telemetry.pitch 3,
                                  r := pyRound b.telemetry.roll 3,
                                  y := pyRound b.telemetry.yaw 3 },
                    alt := pyRound b.telemetry.alt 2 }
    is_blackout := b.is_blackout }

/-- Modelled from the external pymavlink library: `master.mode_mapping()`,
the mode-name → mode-id table of an ArduCopter vehicle (relevant entries). -/
def mode_mapping : List (String × Nat) :=
  [("STABILIZE", 0), ("ALT_HOLD", 2), ("LOITER", 5), ("RTL", 6), ("LAND", 9)]

/-- Outward effects of the bridge's command methods. -/
inductive BridgeEffect where
  | log (message : String)
  | setModeSend (mode_id : Nat)
  | rcChannelsOverride (channels : List ℕ)

/-- Model of `MAVLinkBridge.set_mode`: an unknown mode name is logged with no
outward command; a known one issues `set_mode_send` with its mode id. -/
def set_mode (mode_name : String) : List BridgeEffect :=
  match mode_mapping.find? (fun kv => kv.1 == mode_name) with
  | none => [.log ("Unknown mode: " ++ mode_name)]
  | some kv => [.setModeSend kv.2, .log ("Mode set to " ++ mode_name)]

/-- Model of `MAVLinkBridge.send_rc_override(pitch, roll, throttle, yaw)`:
channels 1-8 on the wire are `[roll, pitch, throttle, yaw, 0, 0, 0, 0]`. -/
def send_rc_override (pitch roll throttle yaw : ℕ) : List BridgeEffect :=
  [.rcChannelsOverride [roll, pitch, throttle, yaw, 0, 0, 0, 0]]

/-- One bridge method call, for stating state-transition invariants
(`get_snapshot`, `set_mode` and `send_rc_override` do not mutate the bridge
state). -/
inductive BridgeOp where
  | waitForHeartbeat (now : ℚ)
  | updateOp (now : ℚ) (msg : Option MavMsg)
  | getSnapshotOp (now : ℚ)
  | setModeOp (name : String)
  | sendRcOverrideOp (pitch roll throttle yaw : ℕ)

/-- The state effect of one bridge method call. -/
def applyOp (b : MAVLinkBridge) : BridgeOp → MAVLinkBridge
  | .waitForHeartbeat now => wait_for_heartbeat now b
  | .updateOp now msg => update now msg b
  | .getSnapshotOp _ => b
  | .setModeOp _ => b
  | .sendRcOverrideOp _ _ _ _ => b

/-- Run a sequence of `update` calls (time, message) through the bridge. -/
def runUpdates (b : MAVLinkBridge) : List (ℚ × Option MavMsg) → MAVLinkBridge
  | [] => b
  | (now, msg) :: rest => runUpdates (update now msg b) rest

/-- Every `update` event of the trace occurs within 3.0 s of the
then-current `last_heartbeat` (executable predicate). -/
def noTimeoutTrace (b : MAVLinkBridge) : List (ℚ × Option MavMsg) → Bool
  | [] => true
  | (now, msg) :: rest =>
    gapLeB now b.last_heartbeat 3 && noTimeoutTrace (update now msg b) rest

/-! ## `SovereignPilot` (`src/integration/ardupilot/scripts/sovereign_pilot.py`)

The decision loop: per cycle `bridge.update()`, `bridge.get_snapshot()`,
exclusion test (`is_blackout or gps_fix < 3`), cooldown gate
(`time.time() - last_decision_time > decision_cooldown`); a triggered
decision generates, persists and dispatches one manifest and then stamps
`last_decision_time = time.time()`.  A cycle is modelled at a single
wall-clock instant `now`; a triggered decision is recorded by that time.
`SomaticSub.run` (`src/domains/underwater/scripts/somatic_sub.py`) is the
same loop with `decision_cooldown = 10.0` and the exclusion test reduced to
`is_blackout` alone. -/

/-- The decision-relevant state of `SovereignPilot.run`: the bridge, the
cooldown stamp (`__init__` sets `last_decision_time = 0`) and the times of
the decisions triggered so far (one manifest each). -/
structure LoopState where
  bridge : MAVLinkBridge
  last_decision_time : ℚ
  decisions : List ℚ

/-- `SovereignPilot.__init__` state over a given bridge. -/
def initLoopState (b : MAVLinkBridge) : LoopState :=
  { bridge := b, last_decision_time := 0, decisions := [] }

/-- The exclusion-zone test of `SovereignPilot.run`:
`snapshot["is_blackout"] or snapshot["perception"]["gps_fix"] < 3`. -/
def isExclusion (snap : Snapshot) : Bool :=
  snap.is_blackout || decide (snap.perception.gps_fix < 3)

/-- One iteration of the while-loop of `SovereignPilot.run` at wall-clock
`now` with at most one inbound message. -/
def loopCycle (cooldown : ℚ) (st : LoopState) (now : ℚ) (msg : Option MavMsg) : LoopState :=
  let b := update now msg st.bridge
  let snap := get_snapshot now b
  if isExclusion snap && gapGtB now st.last_decision_time cooldown then
    { bridge := b, last_decision_time := now, decisions := st.decisions ++ [now] }
  else
    { st with bridge := b }

/-- Run the decision loop over a trace of poll cycles (time, message). -/
def runLoop (cooldown : ℚ) (st : LoopState) : List (ℚ × Option MavMsg) → LoopState
  | [] => st
  | (now, msg) :: rest => runLoop cooldown (loopCycle cooldown st now msg) rest

/-- The exclusion condition evaluates to true at every cycle of the trace
(executable predicate over the run). -/
def persistentExclusion (cooldown : ℚ) (st : LoopState) :
    List (ℚ × Option MavMsg) → Bool
  | [] => true
  | (now, msg) :: rest =>
    isExclusion (get_snapshot now (update now msg st.bridge))
      && persistentExclusion cooldown (loopCycle cooldown st now msg) rest

/-- The cycle times are nondecreasing with consecutive gaps at most `dt`
(executable predicate). -/
def timesWithin (dt : ℚ) : List ℚ → Bool
  | [] => true
  | [_] => true
  | a :: b :: rest => gapLeB a b 0 && gapLeB b a dt && timesWithin dt (b :: rest)

/-- Actions the command translator `execute_decision` can take: a mode-change
request through `bridge.set_mode`, a direct override through
`bridge.send_rc_override`, or a log-only outcome. -/
inductive PilotAction where
  | setMode (name : String)
  | rcOverride (pitch roll throttle yaw : ℕ)
  | logInvalidOverride (command : String)
  | logMonitoring (command : String)
deriving DecidableEq

/-- Model of `SovereignPilot.execute_decision(command)`: upper-cases the
command, then matches the fixed, ordered intent list (first match wins);
`gps_fix` is the bridge's current `telemetry["gps_fix"]` read in the
`STOP`/`HOVER`/`HOLD_POSITION` branch. -/
def execute_decision (gps_fix : ℤ) (command0 : String) : List PilotAction :=
  let command := String.mk (pyUpper command0.data)
  let cmd := command.data
  if containsSeq "SWITCH_MODE".data cmd then
    let target_mode := String.mk (pyStrip (afterLastSep cmd "SWITCH_MODE".data))
    if containsSeq "HEADING_HOLD".data target_mode.data
        || containsSeq "ALT_HOLD".data target_mode.data then
      [.setMode "ALT_HOLD"]
    else if containsSeq "LAND".data target_mode.data then
      [.setMode "LAND"]
    else if containsSeq "STABILIZE".data target_mode.data then
      [.setMode "STABILIZE"]
    else
      [.setMode target_mode]
  else if containsSeq "SUN_SAFE_ATTITUDE".data cmd
      || containsSeq "MAINTAIN_STABILITY".data cmd then
    [.setMode "ALT_HOLD"]
  else if containsSeq "EMERGENCY_LAND".data cmd then
    [.setMode "LAND"]
  else if containsSeq "STOP".data cmd || containsSeq "HOVER".data cmd
      || containsSeq "HOLD_POSITION".data cmd then
    if gps_fix < 3 then [.setMode "ALT_HOLD"] else [.setMode "LOITER"]
  else if containsSeq "RC_OVERRIDE".data cmd then
    let params := ((pySplitWs cmd).filter isDigitsL).map digitsToNat
    match params with
    | [a, b, c, d] => [.rcOverride a b c d]
    | _ => [.logInvalidOverride command]
  else
    [.logMonitoring command]

/-- Test whether an `update` input carries a HEARTBEAT message. -/
def isHeartbeatMsg : Option MavMsg → Bool
  | some (.heartbeat _) => true
  | _ => false

/-! ## Theorems -/

theorem rat_mul_den_eq_num (q : ℚ) : q * (q.den : ℚ) = (q.num : ℚ) := by
  nth_rewrite 1 [← Rat.num_div_den q]
  exact div_mul_cancel₀ _ (by exact_mod_cast q.den_nz)

theorem gapGtB_iff (now last c : ℚ) : gapGtB now last c = true ↔ now - last > c := by
  rw [gapGtB, decide_eq_true_eq, gt_iff_lt]
  have hD : (0:ℚ) < ((now.den : ℚ) * (last.den : ℚ)) * (c.den : ℚ) := by
    have h1 : (0:ℚ) < (now.den : ℚ) := by exact_mod_cast now.den_pos
    have h2 : (0:ℚ) < (last.den : ℚ) := by exact_mod_cast last.den_pos
    have h3 : (0:ℚ) < (c.den : ℚ) := by exact_mod_cast c.den_pos
    positivity
  rw [← mul_lt_mul_right hD]
  have e1 : c * (((now.den : ℚ) * (last.den : ℚ)) * (c.den : ℚ))
      = (c.num : ℚ) * ((now.den : ℚ) * (last.den : ℚ)) := by
    rw [← rat_mul_den_eq_num c]; ring
  have e2 : (now - last) * (((now.den : ℚ) * (last.den : ℚ)) * (c.den : ℚ))
      = ((now.num : ℚ) * (last.den : ℚ) - (last.num : ℚ) * (now.den : ℚ)) * (c.den : ℚ) := by
    rw [← rat_mul_den_eq_num now, ← rat_mul_den_eq_num last]; ring
  rw [e1, e2]
  constructor <;> intro h <;> exact_mod_cast h

theorem gapLeB_iff (now last c : ℚ) : gapLeB now last c = true ↔ now - last ≤ c := by
  rw [gapLeB, Bool.not_eq_true', ← not_lt]
  rw [show (gapGtB now last c = false) ↔ ¬ (gapGtB now last c = true) by simp]
  exact not_congr (gapGtB_iff now last c)

theorem gapGtB_eq_false_iff (now last c : ℚ) :
    gapGtB now last c = false ↔ now - last ≤ c := by
  rw [show (gapGtB now last c = false) ↔ (gapLeB now last c = true) by simp [gapLeB]]
  exact gapLeB_iff now last c

/-- C1: for every manifest returned by `ReasoningAgent.generate_manifest`,
recomputing the SHA-256 digest of the key-sorted JSON serialization of the
manifest with the `sha256_proof` field replaced by the empty string yields
exactly the stored `sha256_proof`, and clearing the proof of the returned
manifest recovers exactly the manifest that was serialized and hashed (the
manifest is returned unchanged after the proof is set). -/
theorem C1_proof_roundtrip (outcome : InferenceOutcome)
    (timestamp mission_id environment : String) (telemetry : Json)
    (anomaly : String) (isolation : Bool) (trajectory : Option Json) :
    recomputeProof (generate_manifest outcome timestamp mission_id environment
        telemetry anomaly isolation trajectory)
      = (generate_manifest outcome timestamp mission_id environment
        telemetry anomaly isolation trajectory).sha256_proof
    ∧ generate_manifest outcome timestamp mission_id environment
        telemetry anomaly isolation trajectory
      = { clearProof (generate_manifest outcome timestamp mission_id environment
            telemetry anomaly isolation trajectory) with
          sha256_proof := sha256hex (canonicalSerialization (clearProof
            (generate_manifest outcome timestamp mission_id environment
              telemetry anomaly isolation trajectory))) } :=
  ⟨rfl, rfl⟩

/-- C9 counterexample: with `epistemic_isolation = true` the generated
manifest's `epistemic_status` is the string `"503_BLACKOUT"`, not
`"BLACKOUT"` as the claim states. -/
theorem C9_counterexample :
    (generate_manifest .backendUnavailable "2026-01-01T00:00:00Z" "m1" "DEEPBLUE"
        .null "ACOUSTIC_LINK_LOSS" true none).epistemic_status = "503_BLACKOUT"
    ∧ (generate_manifest .backendUnavailable "2026-01-01T00:00:00Z" "m1" "DEEPBLUE"
        .null "ACOUSTIC_LINK_LOSS" true none).epistemic_status ≠ "BLACKOUT" := by
  exact ⟨rfl, by decide⟩

/-- C9 (amended): `is_dark_window` equals the `epistemic_isolation` argument,
and `epistemic_status` is `"503_BLACKOUT"` when the flag is true and
`"NOMINAL_LINK"` when it is false; those two strings are its only values. -/
theorem C9_amended (outcome : InferenceOutcome)
    (timestamp mission_id environment : String) (telemetry : Json)
    (anomaly : String) (isolation : Bool) (trajectory : Option Json) :
    (generate_manifest outcome timestamp mission_id environment
        telemetry anomaly isolation trajectory).is_dark_window = isolation
    ∧ (generate_manifest outcome timestamp mission_id environment
        telemetry anomaly isolation trajectory).epistemic_status
      = (if isolation then "503_BLACKOUT" else "NOMINAL_LINK")
    ∧ ((generate_manifest outcome timestamp mission_id environment
        telemetry anomaly isolation trajectory).epistemic_status = "NOMINAL_LINK"
      ∨ (generate_manifest outcome timestamp mission_id environment
        telemetry anomaly isolation trajectory).epistemic_status = "503_BLACKOUT") := by
  refine ⟨rfl, rfl, ?_⟩
  cases isolation
  · left; rfl
  · right; rfl

/-- C4: whenever the inference backend is unavailable or fails (any
non-`parsed` outcome: `mlx_lm` absent, model not loaded, inference raised, or
the response unparsable), the generated manifest embeds the deterministic
fallback payload, a pure function of the anomaly string and the isolation
flag, with `decision.actuator_command = "HOLD_POSITION"` and
`mission_assurance_check.risk_level = "HIGH"`; `generate_manifest` still
returns a manifest (the error is never surfaced). -/
theorem C4_fallback_payload (outcome : InferenceOutcome)
    (h : outcome = .backendUnavailable ∨ outcome = .inferenceError
        ∨ outcome = .parseError)
    (timestamp mission_id environment : String) (telemetry : Json)
    (anomaly : String) (isolation : Bool) (trajectory : Option Json) :
    (generate_manifest outcome timestamp mission_id environment
        telemetry anomaly isolation trajectory).agent_reasoning
      = fallbackReasoning anomaly isolation
    ∧ ((jsonGet (fallbackReasoning anomaly isolation) "decision").bind
        (fun d => jsonGet d "actuator_command")) = some (.str "HOLD_POSITION")
    ∧ ((jsonGet (fallbackReasoning anomaly isolation) "mission_assurance_check").bind
        (fun d => jsonGet d "risk_level")) = some (.str "HIGH") := by
  rcases h with h | h | h <;> subst h <;> exact ⟨rfl, rfl, rfl⟩

/-- C4 witness: a backend that always raises, on
`("ACOUSTIC_LINK_LOSS", isolated = true)`. -/
theorem C4_fallback_payload_witness :
    (InferenceOutcome.inferenceError = .backendUnavailable
        ∨ InferenceOutcome.inferenceError = .inferenceError
        ∨ InferenceOutcome.inferenceError = .parseError)
    ∧ ((generate_manifest .inferenceError "2026-01-01T00:00:00Z" "m1" "DEEPBLUE"
          .null "ACOUSTIC_LINK_LOSS" true none).agent_reasoning
        = fallbackReasoning "ACOUSTIC_LINK_LOSS" true
      ∧ ((jsonGet (fallbackReasoning "ACOUSTIC_LINK_LOSS" true) "decision").bind
          (fun d => jsonGet d "actuator_command")) = some (.str "HOLD_POSITION")
      ∧ ((jsonGet (fallbackReasoning "ACOUSTIC_LINK_LOSS" true) "mission_assurance_check").bind
          (fun d => jsonGet d "risk_level")) = some (.str "HIGH")) :=
  ⟨Or.inr (Or.inl rfl),
   C4_fallback_payload .inferenceError (Or.inr (Or.inl rfl))
     "2026-01-01T00:00:00Z" "m1" "DEEPBLUE" .null "ACOUSTIC_LINK_LOSS" true none⟩

/-- C7 counterexample: for the command `"RC_OVERRIDE 1400 1600 1200 1500"`
the dispatched override binds `pitch = 1400` and `roll = 1600` (the first
integer is the first positional argument, `pitch`), not `pitch = 1600`,
`roll = 1400` as the claim states. -/
theorem C7_counterexample :
    execute_decision 3 "RC_OVERRIDE 1400 1600 1200 1500"
      = [PilotAction.rcOverride 1400 1600 1200 1500]
    ∧ execute_decision 3 "RC_OVERRIDE 1400 1600 1200 1500"
      ≠ [PilotAction.rcOverride 1600 1400 1200 1500] := by
  exact ⟨by decide, by decide⟩

/-- C7 (amended): dispatching `"RC_OVERRIDE 1400 1600 1200 1500"` always
(for every GPS-fix state) invokes exactly one actuator override, with
`pitch = 1400`, `roll = 1600`, `throttle = 1200`, `yaw = 1500` (positional
binding of the four integers to `send_rc_override(pitch, roll, throttle,
yaw)`), and `send_rc_override` puts them on the wire in channel order
`[roll, pitch, throttle, yaw, 0, 0, 0, 0]`. -/
theorem C7_rc_override_dispatch (gps_fix : ℤ) :
    execute_decision gps_fix "RC_OVERRIDE 1400 1600 1200 1500"
      = [PilotAction.rcOverride 1400 1600 1200 1500]
    ∧ send_rc_override 1400 1600 1200 1500
      = [BridgeEffect.rcChannelsOverride [1600, 1400, 1200, 1500, 0, 0, 0, 0]] :=
  ⟨rfl, rfl⟩

/-- C6 counterexample: `"EMERGENCY_LAND STOP"` contains `"STOP"` and is
dispatched with GPS fix 1 (< 3), yet the translator requests `LAND` (the
`EMERGENCY_LAND` intent matches first), not the altitude-hold mode the
claim requires for every command containing `"STOP"`. -/
theorem C6_counterexample :
    containsSeq "STOP".data (pyUpper "EMERGENCY_LAND STOP".data) = true
    ∧ execute_decision 1 "EMERGENCY_LAND STOP" = [PilotAction.setMode "LAND"]
    ∧ execute_decision 1 "EMERGENCY_LAND STOP" ≠ [PilotAction.setMode "ALT_HOLD"]
    ∧ execute_decision 1 "EMERGENCY_LAND STOP" ≠ [PilotAction.setMode "LOITER"] := by
  exact ⟨by decide, by decide, by decide, by decide⟩

/-- C6 (amended): for every dispatched command containing `"STOP"`,
`"HOVER"` or `"HOLD_POSITION"` (case-insensitively) that does not match one
of the earlier intents of the ordered dispatch list (`SWITCH_MODE`,
`SUN_SAFE_ATTITUDE`, `MAINTAIN_STABILITY`, `EMERGENCY_LAND`), the
translator requests `ALT_HOLD` when the bridge's current GPS fix is below 3
and `LOITER` otherwise; in particular GPS fix 1 with `"HOLD_POSITION"`
selects altitude-hold. -/
theorem C6_hold_position_mode (gps_fix : ℤ) (command : String)
    (h1 : containsSeq "SWITCH_MODE".data (pyUpper command.data) = false)
    (h2 : containsSeq "SUN_SAFE_ATTITUDE".data (pyUpper command.data) = false)
    (h3 : containsSeq "MAINTAIN_STABILITY".data (pyUpper command.data) = false)
    (h4 : containsSeq "EMERGENCY_LAND".data (pyUpper command.data) = false)
    (h5 : containsSeq "STOP".data (pyUpper command.data) = true
        ∨ containsSeq "HOVER".data (pyUpper command.data) = true
        ∨ containsSeq "HOLD_POSITION".data (pyUpper command.data) = true) :
    execute_decision gps_fix command
      = (if gps_fix < 3 then [PilotAction.setMode "ALT_HOLD"]
         else [PilotAction.setMode "LOITER"])
    ∧ execute_decision 1 "HOLD_POSITION" = [PilotAction.setMode "ALT_HOLD"] := by
  refine ⟨?_, by decide⟩
  rw [execute_decision]
  simp only [h1, h2, h3, h4, Bool.false_eq_true, if_false, Bool.or_self, Bool.or_false,
    Bool.false_or, Bool.or_true, Bool.true_or]
  rcases h5 with h5 | h5 | h5 <;> simp [h5]

/-- C6 witness: GPS fix 1 and the command `"HOLD_POSITION"`. -/
theorem C6_hold_position_mode_witness :
    execute_decision 1 "HOLD_POSITION"
      = (if (1:ℤ) < 3 then [PilotAction.setMode "ALT_HOLD"]
         else [PilotAction.setMode "LOITER"]) :=
  (C6_hold_position_mode 1 "HOLD_POSITION" (by decide) (by decide) (by decide)
    (by decide) (Or.inr (Or.inr (by decide)))).1

/-- C8 counterexample: `"STOP RC_OVERRIDE 1000 1100 1200 1300"` contains
`"RC_OVERRIDE"` and carries exactly four integers, yet no override is issued
and a mode command is dispatched instead (the `STOP` intent matches first),
contradicting both halves of the claim's guarantee. -/
theorem C8_counterexample :
    containsSeq "RC_OVERRIDE".data (pyUpper "STOP RC_OVERRIDE 1000 1100 1200 1300".data) = true
    ∧ ((pySplitWs (pyUpper "STOP RC_OVERRIDE 1000 1100 1200 1300".data)).filter
        isDigitsL).map digitsToNat = [1000, 1100, 1200, 1300]
    ∧ execute_decision 3 "STOP RC_OVERRIDE 1000 1100 1200 1300"
      = [PilotAction.setMode "LOITER"]
    ∧ execute_decision 3 "STOP RC_OVERRIDE 1000 1100 1200 1300"
      ≠ [PilotAction.rcOverride 1000 1100 1200 1300] := by
  exact ⟨by decide, by decide, by decide, by decide⟩

/-- C8 (amended): for every dispatched command containing `"RC_OVERRIDE"`
that does not match one of the earlier intents of the ordered dispatch list:
if the command carries exactly four integers a single override with those
four values is issued, and otherwise the malformed command is reported by a
log-only action — no override and no mode command. -/
theorem C8_rc_override_arity (gps_fix : ℤ) (command : String)
    (h1 : containsSeq "SWITCH_MODE".data (pyUpper command.data) = false)
    (h2 : containsSeq "SUN_SAFE_ATTITUDE".data (pyUpper command.data) = false)
    (h3 : containsSeq "MAINTAIN_STABILITY".data (pyUpper command.data) = false)
    (h4 : containsSeq "EMERGENCY_LAND".data (pyUpper command.data) = false)
    (h5 : containsSeq "STOP".data (pyUpper command.data) = false)
    (h6 : containsSeq "HOVER".data (pyUpper command.data) = false)
    (h7 : containsSeq "HOLD_POSITION".data (pyUpper command.data) = false)
    (h8 : containsSeq "RC_OVERRIDE".data (pyUpper command.data) = true) :
    (∀ a b c d : ℕ,
      ((pySplitWs (pyUpper command.data)).filter isDigitsL).map digitsToNat = [a, b, c, d] →
      execute_decision gps_fix command = [PilotAction.rcOverride a b c d])
    ∧ ((((pySplitWs (pyUpper command.data)).filter isDigitsL).map digitsToNat).length ≠ 4 →
      execute_decision gps_fix command
        = [PilotAction.logInvalidOverride (String.mk (pyUpper command.data))]) := by
  constructor
  · intro a b c d hp
    rw [execute_decision]
    simp only [h1, h2, h3, h4, h5, h6, h7, h8, Bool.false_eq_true, if_false, if_true,
      Bool.or_self, Bool.false_or]
    rw [hp]
  · intro hlen
    rw [execute_decision]
    simp only [h1, h2, h3, h4, h5, h6, h7, h8, Bool.false_eq_true, if_false, if_true,
      Bool.or_self, Bool.false_or]
    rcases hp : ((pySplitWs (pyUpper command.data)).filter isDigitsL).map digitsToNat with
      _ | ⟨a, _ | ⟨b, _ | ⟨c, _ | ⟨d, _ | ⟨e, t⟩⟩⟩⟩⟩ <;>
      first
        | rfl
        | (exact absurd (by rw [hp]; rfl) hlen)

/-- C8 witness: a well-formed override and a malformed two-integer one. -/
theorem C8_rc_override_arity_witness :
    execute_decision 3 "RC_OVERRIDE 1000 1100 1200 1300"
      = [PilotAction.rcOverride 1000 1100 1200 1300]
    ∧ execute_decision 3 "RC_OVERRIDE 1000 1100"
      = [PilotAction.logInvalidOverride (String.mk (pyUpper "RC_OVERRIDE 1000 1100".data))] :=
  ⟨(C8_rc_override_arity 3 "RC_OVERRIDE 1000 1100 1200 1300" (by decide) (by decide)
      (by decide) (by decide) (by decide) (by decide) (by decide) (by decide)).1
      1000 1100 1200 1300 (by decide),
   (C8_rc_override_arity 3 "RC_OVERRIDE 1000 1100" (by decide) (by decide)
      (by decide) (by decide) (by decide) (by decide) (by decide) (by decide)).2
      (by decide)⟩

/-- C2 counterexample: seed the heartbeat at t = 0 and call `get_snapshot`
at t = 10 with no intervening `update`: the gap exceeds 3.0 s with no
heartbeat, yet the snapshot reports `is_blackout = false` — `get_snapshot`
does not re-evaluate the timeout (only `update` does). -/
theorem C2_counterexample :
    (10 : ℚ) - (wait_for_heartbeat 0 initBridge).last_heartbeat > 3
    ∧ (get_snapshot 10 (wait_for_heartbeat 0 initBridge)).is_blackout = false :=
  ⟨(gapGtB_iff 10 0 3).mp (by decide), rfl⟩

/-- C2 (amended): the blackout timeout is re-evaluated by `update` (the
poll), not by `get_snapshot`, which reports the flag as last set.  (a) After
a gap of more than 3.0 s since the last heartbeat, an `update` carrying no
heartbeat makes every subsequent snapshot report `is_blackout = true`.
(b) Along any sequence of `update` calls each occurring within 3.0 s of the
then-current last heartbeat, starting from a non-blackout state, every
snapshot keeps reporting `is_blackout = false`. -/
theorem C2_blackout_timing :
    (∀ (b : MAVLinkBridge) (now tSnap : ℚ) (msg : Option MavMsg),
      now - b.last_heartbeat > 3 → isHeartbeatMsg msg = false →
      (get_snapshot tSnap (update now msg b)).is_blackout = true)
    ∧ (∀ (b : MAVLinkBridge) (ops : List (ℚ × Option MavMsg)) (tSnap : ℚ),
      b.is_blackout = false → noTimeoutTrace b ops = true →
      (get_snapshot tSnap (runUpdates b ops)).is_blackout = false) := by
  constructor
  · intro b now tSnap msg hgap hmsg
    have hg : gapGtB now b.last_heartbeat 3 = true := (gapGtB_iff _ _ _).mpr hgap
    cases msg with
    | none => simp [update, get_snapshot, hg]
    | some m =>
      cases m with
      | heartbeat custom_mode => simp [isHeartbeatMsg] at hmsg
      | sys_status v r => simp [update, get_snapshot, hg]
      | gps_raw_int f s => simp [update, get_snapshot, hg]
      | attitude p r y => simp [update, get_snapshot, hg]
      | vfr_hud a => simp [update, get_snapshot, hg]
      | other => simp [update, get_snapshot, hg]
  · intro b ops tSnap hb htrace
    induction ops generalizing b with
    | nil => simpa [runUpdates, get_snapshot] using hb
    | cons p rest ih =>
      obtain ⟨now, msg⟩ := p
      rw [noTimeoutTrace, Bool.and_eq_true] at htrace
      have hng : gapGtB now b.last_heartbeat 3 = false := by
        have := htrace.1
        rwa [gapLeB, Bool.not_eq_true'] at this
      have hup : (update now msg b).is_blackout = false := by
        cases msg with
        | none => simp [update, hng, hb]
        | some m =>
          cases m with
          | heartbeat custom_mode => simp [update, hng]
          | sys_status v r => simp [update, hng, hb]
          | gps_raw_int f s => simp [update, hng, hb]
          | attitude p r y => simp [update, hng, hb]
          | vfr_hud a => simp [update, hng, hb]
          | other => simp [update, hng, hb]
      exact ih _ hup htrace.2

/-- C2 witness: (a) heartbeat at 0, silent update at 10, snapshot at 11
reports blackout; (b) heartbeats/polls at 2 and 4 (each within 3.0 s of the
last heartbeat), snapshot at 5 reports no blackout. -/
theorem C2_blackout_timing_witness :
    (get_snapshot 11 (update 10 none (wait_for_heartbeat 0 initBridge))).is_blackout = true
    ∧ (get_snapshot 5 (runUpdates (wait_for_heartbeat 0 initBridge)
        [(2, some (.heartbeat 5)), (4, none)])).is_blackout = false :=
  ⟨C2_blackout_timing.1 (wait_for_heartbeat 0 initBridge) 10 11 none
      ((gapGtB_iff 10 0 3).mp (by decide)) rfl,
   C2_blackout_timing.2 (wait_for_heartbeat 0 initBridge)
      [(2, some (.heartbeat 5)), (4, none)] 5 rfl (by decide)⟩

/-- C3: in every state of the bridge, `is_blackout` flips from false to true
only through an `update` call whose wall-clock time exceeds
`last_heartbeat + 3.0`, and flips from true to false only through an
`update` call that received a HEARTBEAT message; no other bridge operation
(`wait_for_heartbeat`, `get_snapshot`, `set_mode`, `send_rc_override`)
changes it. -/
theorem C3_blackout_transition_invariant (b : MAVLinkBridge) (op : BridgeOp) :
    ((applyOp b op).is_blackout = true → b.is_blackout = false →
      ∃ now msg, op = .updateOp now msg ∧ now - b.last_heartbeat > 3)
    ∧ ((applyOp b op).is_blackout = false → b.is_blackout = true →
      ∃ now custom_mode, op = .updateOp now (some (.heartbeat custom_mode))) := by
  cases op with
  | waitForHeartbeat now =>
    constructor
    · intro h1 h2
      rw [show (applyOp b (.waitForHeartbeat now)).is_blackout = b.is_blackout from rfl] at h1
      rw [h1] at h2; exact absurd h2 (by decide)
    · intro h1 h2
      rw [show (applyOp b (.waitForHeartbeat now)).is_blackout = b.is_blackout from rfl] at h1
      rw [h1] at h2; exact absurd h2 (by decide)
  | getSnapshotOp now =>
    exact ⟨fun h1 h2 => absurd (h1 ▸ h2) (by decide),
           fun h1 h2 => absurd (h1 ▸ h2) (by decide)⟩
  | setModeOp name =>
    exact ⟨fun h1 h2 => absurd (h1 ▸ h2) (by decide),
           fun h1 h2 => absurd (h1 ▸ h2) (by decide)⟩
  | sendRcOverrideOp p r t y =>
    exact ⟨fun h1 h2 => absurd (h1 ▸ h2) (by decide),
           fun h1 h2 => absurd (h1 ▸ h2) (by decide)⟩
  | updateOp now msg =>
    constructor
    · intro h1 h2
      refine ⟨now, msg, rfl, (gapGtB_iff _ _ _).mp ?_⟩
      by_contra hng
      rw [Bool.not_eq_true] at hng
      cases msg with
      | none => rw [show applyOp b (.updateOp now none) = update now none b from rfl] at h1
                simp [update, hng, h2] at h1
      | some m =>
        cases m with
        | heartbeat custom_mode =>
          rw [show applyOp b (.updateOp now (some (.heartbeat custom_mode)))
              = update now (some (.heartbeat custom_mode)) b from rfl] at h1
          simp [update, hng] at h1
        | sys_status v r => simp [applyOp, update, hng, h2] at h1
        | gps_raw_int f s => simp [applyOp, update, hng, h2] at h1
        | attitude p r y => simp [applyOp, update, hng, h2] at h1
        | vfr_hud a => simp [applyOp, update, hng, h2] at h1
        | other => simp [applyOp, update, hng, h2] at h1
    · intro h1 h2
      cases msg with
      | none =>
        exfalso
        rcases hg : gapGtB now b.last_heartbeat 3 with _ | _ <;>
          simp [applyOp, update, hg, h2] at h1
      | some m =>
        cases m with
        | heartbeat custom_mode => exact ⟨now, custom_mode, rfl⟩
        | sys_status v r =>
          exfalso
          rcases hg : gapGtB now b.last_heartbeat 3 with _ | _ <;>
            simp [applyOp, update, hg, h2] at h1
        | gps_raw_int f s =>
          exfalso
          rcases hg : gapGtB now b.last_heartbeat 3 with _ | _ <;>
            simp [applyOp, update, hg, h2] at h1
        | attitude p r y =>
          exfalso
          rcases hg : gapGtB now b.last_heartbeat 3 with _ | _ <;>
            simp [applyOp, update, hg, h2] at h1
        | vfr_hud a =>
          exfalso
          rcases hg : gapGtB now b.last_heartbeat 3 with _ | _ <;>
            simp [applyOp, update, hg, h2] at h1
        | other =>
          exfalso
          rcases hg : gapGtB now b.last_heartbeat 3 with _ | _ <;>
            simp [applyOp, update, hg, h2] at h1

/-- C3 witness: a silent update at t = 10 after a heartbeat at t = 0 flips
false → true and is indeed a timed-out update; a heartbeat update flips
true → false. -/
theorem C3_blackout_transition_invariant_witness :
    (∃ now msg, BridgeOp.updateOp 10 none = .updateOp now msg
      ∧ now - (wait_for_heartbeat 0 initBridge).last_heartbeat > 3)
    ∧ (∃ now custom_mode, BridgeOp.updateOp 20 (some (.heartbeat 5))
        = .updateOp now (some (.heartbeat custom_mode))) :=
  ⟨(C3_blackout_transition_invariant (wait_for_heartbeat 0 initBridge)
      (.updateOp 10 none)).1 (by decide) rfl,
   (C3_blackout_transition_invariant
      (update 10 none (wait_for_heartbeat 0 initBridge))
      (.updateOp 20 (some (.heartbeat 5)))).2 (by decide) (by decide)⟩

theorem loopCycle_triggered (cooldown : ℚ) (st : LoopState) (now : ℚ) (msg : Option MavMsg)
    (h : (isExclusion (get_snapshot now (update now msg st.bridge))
        && gapGtB now st.last_decision_time cooldown) = true) :
    loopCycle cooldown st now msg
      = { bridge := update now msg st.bridge, last_decision_time := now,
          decisions := st.decisions ++ [now] } := by
  rw [loopCycle]
  simp only [h, if_true]

theorem loopCycle_skipped (cooldown : ℚ) (st : LoopState) (now : ℚ) (msg : Option MavMsg)
    (h : (isExclusion (get_snapshot now (update now msg st.bridge))
        && gapGtB now st.last_decision_time cooldown) = false) :
    loopCycle cooldown st now msg = { st with bridge := update now msg st.bridge } := by
  rw [loopCycle]
  simp only [h, Bool.false_eq_true, if_false]

/-- Invariant tying the decision list to the cooldown stamp: decision times
form a chain with gaps strictly above the cooldown, and the stamp is the
last decision time (when any decision exists). -/
def decChain (cooldown : ℚ) (st : LoopState) : Prop :=
  List.Chain' (fun a b => b - a > cooldown) st.decisions
  ∧ (st.decisions = [] ∨ st.decisions.getLast? = some st.last_decision_time)

theorem decChain_loopCycle (cooldown : ℚ) (st : LoopState) (now : ℚ) (msg : Option MavMsg)
    (h : decChain cooldown st) : decChain cooldown (loopCycle cooldown st now msg) := by
  rcases hg : (isExclusion (get_snapshot now (update now msg st.bridge))
      && gapGtB now st.last_decision_time cooldown) with _ | _
  · rw [loopCycle_skipped cooldown st now msg hg]
    exact h
  · rw [loopCycle_triggered cooldown st now msg hg]
    have hg' := hg
    rw [Bool.and_eq_true] at hg'
    have hgap : now - st.last_decision_time > cooldown :=
      (gapGtB_iff _ _ _).mp hg'.2
    constructor
    · rw [List.chain'_append]
      refine ⟨h.1, List.chain'_singleton _, ?_⟩
      intro x hx y hy
      rcases h.2 with he | hl
      · rw [he] at hx; exact absurd hx (by simp)
      · rw [hl] at hx
        rw [List.head?_cons, Option.mem_def, Option.some_inj] at hy
        rw [Option.mem_def, Option.some_inj] at hx
        rw [← hy, ← hx]
        exact hgap
    · right
      exact List.getLast?_concat _

theorem decChain_runLoop (cooldown : ℚ) (st : LoopState)
    (trace : List (ℚ × Option MavMsg)) (h : decChain cooldown st) :
    decChain cooldown (runLoop cooldown st trace) := by
  induction trace generalizing st with
  | nil => exact h
  | cons p rest ih =>
    obtain ⟨now, msg⟩ := p
    exact ih _ (decChain_loopCycle cooldown st now msg h)

theorem runLoop_decisions_mem (cooldown : ℚ) (st : LoopState)
    (trace : List (ℚ × Option MavMsg)) :
    ∀ d ∈ (runLoop cooldown st trace).decisions,
      d ∈ st.decisions ∨ d ∈ trace.map Prod.fst := by
  induction trace generalizing st with
  | nil => exact fun d hd => Or.inl hd
  | cons p rest ih =>
    obtain ⟨now, msg⟩ := p
    intro d hd
    rcases hg : (isExclusion (get_snapshot now (update now msg st.bridge))
        && gapGtB now st.last_decision_time cooldown) with _ | _
    · rw [runLoop, loopCycle_skipped cooldown st now msg hg] at hd
      rcases ih _ d hd with h1 | h1
      · exact Or.inl h1
      · exact Or.inr (List.mem_cons_of_mem _ h1)
    · rw [runLoop, loopCycle_triggered cooldown st now msg hg] at hd
      rcases ih _ d hd with h1 | h1
      · rcases List.mem_append.mp h1 with h2 | h2
        · exact Or.inl h2
        · rw [List.mem_singleton] at h2
          exact Or.inr (by rw [h2]; exact List.mem_cons_self _ _)
      · exact Or.inr (List.mem_cons_of_mem _ h1)

theorem chain_gap_spread (cooldown : ℚ) :
    ∀ (xs : List ℚ) (x : ℚ),
      List.Chain' (fun a b => b - a > cooldown) (x :: xs) →
      ((x :: xs).getLast (List.cons_ne_nil x xs)) - x ≥ (xs.length : ℚ) * cooldown := by
  intro xs
  induction xs with
  | nil =>
    intro x _
    simp [List.getLast]
  | cons y ys ih =>
    intro x hchain
    rw [List.chain'_cons] at hchain
    have h1 := ih y hchain.2
    have h2 : (x :: y :: ys).getLast (List.cons_ne_nil x (y :: ys))
        = (y :: ys).getLast (List.cons_ne_nil y ys) := List.getLast_cons _
    rw [h2]
    have h3 : y - x ≥ cooldown := le_of_lt hchain.1
    simp only [List.length_cons]
    push_cast
    nlinarith [h1, h3]

theorem chain_window_length (cooldown a T : ℚ) (hC : 0 < cooldown) (hT : 0 ≤ T)
    (l : List ℚ) (hchain : List.Chain' (fun x y => y - x > cooldown) l)
    (hmem : ∀ x ∈ l, a ≤ x ∧ x - a ≤ T) :
    (l.length : ℚ) ≤ T / cooldown + 1 := by
  cases l with
  | nil =>
    have : (0:ℚ) ≤ T / cooldown := div_nonneg hT (le_of_lt hC)
    simpa using by linarith
  | cons x xs =>
    have hspread := chain_gap_spread cooldown xs x hchain
    have hlast := hmem ((x :: xs).getLast (List.cons_ne_nil x xs))
      (List.getLast_mem _)
    have hx := hmem x (List.mem_cons_self _ _)
    have hwin : ((x :: xs).getLast (List.cons_ne_nil x xs)) - x ≤ T := by
      have := hlast.2
      have := hx.1
      linarith
    have hlen : (xs.length : ℚ) * cooldown ≤ T := le_trans hspread hwin
    have hdiv : (xs.length : ℚ) ≤ T / cooldown := (le_div_iff hC).mpr hlen
    rw [List.length_cons]
    push_cast
    linarith

theorem runLoop_decisions_lower (cooldown dt : ℚ) (hC : 0 < cooldown) (hdt : 0 ≤ dt) :
    ∀ (trace : List (ℚ × Option MavMsg)) (st : LoopState) (t0 tEnd : ℚ),
      (trace.map Prod.fst).head? = some t0 →
      (trace.map Prod.fst).getLast? = some tEnd →
      timesWithin dt (trace.map Prod.fst) = true →
      persistentExclusion cooldown st trace = true →
      t0 - st.last_decision_time ≤ cooldown + dt →
      ((runLoop cooldown st trace).decisions.length : ℚ) - st.decisions.length
        ≥ (tEnd - st.last_decision_time - cooldown) / (cooldown + dt) := by
  have hCdt : (0:ℚ) < cooldown + dt := by linarith
  intro trace
  induction trace with
  | nil => intro st t0 tEnd h0; simp at h0
  | cons p rest ih =>
    obtain ⟨u, m⟩ := p
    intro st t0 tEnd h0 hEnd hTimes hPers hPre
    rw [List.map_cons, List.head?_cons, Option.some_inj] at h0
    subst t0
    rw [persistentExclusion, Bool.and_eq_true] at hPers
    have hExcl := hPers.1
    cases rest with
    | nil =>
      rw [List.map_cons, List.map_nil, List.getLast?_singleton, Option.some_inj] at hEnd
      subst tEnd
      rw [runLoop, runLoop]
      rcases hg : gapGtB u st.last_decision_time cooldown with _ | _
      · have hsk : (isExclusion (get_snapshot u (update u m st.bridge))
            && gapGtB u st.last_decision_time cooldown) = false := by
          rw [hg]; exact Bool.and_false _
        rw [loopCycle_skipped cooldown st u m hsk]
        dsimp only
        have hle : u - st.last_decision_time ≤ cooldown :=
          (gapGtB_eq_false_iff _ _ _).mp hg
        have hnn : (u - st.last_decision_time - cooldown) / (cooldown + dt) ≤ 0 :=
          div_nonpos_of_nonpos_of_nonneg (by linarith) (le_of_lt hCdt)
        linarith
      · have htr : (isExclusion (get_snapshot u (update u m st.bridge))
            && gapGtB u st.last_decision_time cooldown) = true := by
          rw [hExcl, hg]; rfl
        rw [loopCycle_triggered cooldown st u m htr]
        dsimp only
        rw [List.length_append, List.length_singleton]
        have hone : (u - st.last_decision_time - cooldown) / (cooldown + dt) ≤ 1 := by
          rw [div_le_one hCdt]
          linarith
        push_cast
        linarith
    | cons q rest' =>
      obtain ⟨v, m'⟩ := q
      rw [List.map_cons, List.map_cons] at hEnd hTimes
      rw [List.getLast?_cons_cons] at hEnd
      rw [timesWithin, Bool.and_eq_true, Bool.and_eq_true] at hTimes
      obtain ⟨⟨huv, hvd⟩, hTimes'⟩ := hTimes
      have huv' : u ≤ v := by
        have := (gapLeB_iff u v 0).mp huv
        linarith
      have hvd' : v - u ≤ dt := (gapLeB_iff v u dt).mp hvd
      rw [runLoop]
      rcases hg : gapGtB u st.last_decision_time cooldown with _ | _
      · have hsk : (isExclusion (get_snapshot u (update u m st.bridge))
            && gapGtB u st.last_decision_time cooldown) = false := by
          rw [hg]; exact Bool.and_false _
        have hle : u - st.last_decision_time ≤ cooldown :=
          (gapGtB_eq_false_iff _ _ _).mp hg
        have hst' := loopCycle_skipped cooldown st u m hsk
        have hPre' : v - (loopCycle cooldown st u m).last_decision_time ≤ cooldown + dt := by
          rw [hst']
          dsimp only
          linarith
        have hIH := ih (loopCycle cooldown st u m) v tEnd
          (by rw [List.map_cons, List.head?_cons])
          (by rw [List.map_cons]; exact hEnd) hTimes' hPers.2 hPre'
        rw [hst'] at hIH
        rw [hst']
        dsimp only at hIH ⊢
        exact hIH
      · have htr : (isExclusion (get_snapshot u (update u m st.bridge))
            && gapGtB u st.last_decision_time cooldown) = true := by
          rw [hExcl, hg]; rfl
        have hst' := loopCycle_triggered cooldown st u m htr
        have hPre' : v - (loopCycle cooldown st u m).last_decision_time ≤ cooldown + dt := by
          rw [hst']
          dsimp only
          linarith
        have hIH := ih (loopCycle cooldown st u m) v tEnd
          (by rw [List.map_cons, List.head?_cons])
          (by rw [List.map_cons]; exact hEnd) hTimes' hPers.2 hPre'
        rw [hst'] at hIH
        rw [hst']
        dsimp only at hIH ⊢
        rw [List.length_append, List.length_singleton] at hIH
        push_cast at hIH ⊢
        have hmono : (tEnd - st.last_decision_time - cooldown) / (cooldown + dt)
            ≤ (tEnd - u - cooldown) / (cooldown + dt) + 1 := by
          have h1 : tEnd - st.last_decision_time - cooldown
              ≤ (tEnd - u - cooldown) + (cooldown + dt) := by linarith
          calc (tEnd - st.last_decision_time - cooldown) / (cooldown + dt)
              ≤ ((tEnd - u - cooldown) + (cooldown + dt)) / (cooldown + dt) :=
                (div_le_div_right hCdt).mpr h1
            _ = (tEnd - u - cooldown) / (cooldown + dt) + 1 := by
                rw [add_div, div_self (ne_of_gt hCdt)]
        linarith

/-- C5 counterexample: with cooldown 5.0, two poll cycles at t = 100 and
t = 200 (span T = 100) under a persistent exclusion condition produce
exactly 2 manifests — equal to N (the number of poll cycles) and far outside
`⌊T / C⌋ ± 1 = 20 ± 1` — so "exactly floor(T / C) (± 1) manifests, not N"
fails as stated. -/
theorem C5_counterexample :
    persistentExclusion 5 (initLoopState (wait_for_heartbeat 0 initBridge))
        [(100, none), (200, none)] = true
    ∧ timesWithin 100 (List.map Prod.fst [((100 : ℚ), (none : Option MavMsg)), (200, none)]) = true
    ∧ (runLoop 5 (initLoopState (wait_for_heartbeat 0 initBridge))
        [(100, none), (200, none)]).decisions = [100, 200]
    ∧ ⌊((200 : ℚ) - 100) / 5⌋ = 20
    ∧ ¬ ((2 : ℤ) = 20 - 1 ∨ (2 : ℤ) = 20 ∨ (2 : ℤ) = 20 + 1) := by
  refine ⟨by decide, by decide, by decide, ?_, by decide⟩
  norm_num

/-- C5 (amended): (i) a poll cycle changes `last_decision_time` (and the
manifest list) only when the exclusion condition holds and the cooldown has
elapsed, in which case the stamp becomes the cycle time and exactly one
manifest is appended; an ordinary poll changes neither.  (ii) Consequently
decision times are separated by more than the cooldown C, so a run whose
poll times all lie within a window of length T produces at most
`⌊T / C⌋ + 1` manifests — not one per poll.  (iii) Under a persistent
exclusion condition with polls at most δ apart whose first cycle finds the
cooldown already elapsed, at least `(tEnd - t0) / (C + δ)` manifests are
produced over the polled span, so the count is `T / C` up to rounding and a
factor `C / (C + δ)`, but not exactly `⌊T / C⌋ ± 1` in general. -/
theorem C5_cooldown_gating :
    (∀ (cooldown : ℚ) (st : LoopState) (now : ℚ) (msg : Option MavMsg),
      ((loopCycle cooldown st now msg).last_decision_time = st.last_decision_time
        ∧ (loopCycle cooldown st now msg).decisions = st.decisions)
      ∨ (isExclusion (get_snapshot now (update now msg st.bridge)) = true
        ∧ now - st.last_decision_time > cooldown
        ∧ (loopCycle cooldown st now msg).last_decision_time = now
        ∧ (loopCycle cooldown st now msg).decisions = st.decisions ++ [now]))
    ∧ (∀ (cooldown a T : ℚ) (b : MAVLinkBridge) (trace : List (ℚ × Option MavMsg)),
      0 < cooldown → 0 ≤ T →
      (∀ p ∈ trace, a ≤ p.1 ∧ p.1 - a ≤ T) →
      (((runLoop cooldown (initLoopState b) trace).decisions.length : ℤ)
        ≤ ⌊T / cooldown⌋ + 1))
    ∧ (∀ (cooldown dt : ℚ) (st : LoopState) (trace : List (ℚ × Option MavMsg)) (t0 tEnd : ℚ),
      0 < cooldown → 0 ≤ dt →
      (trace.map Prod.fst).head? = some t0 →
      (trace.map Prod.fst).getLast? = some tEnd →
      timesWithin dt (trace.map Prod.fst) = true →
      persistentExclusion cooldown st trace = true →
      t0 - st.last_decision_time > cooldown →
      ((runLoop cooldown st trace).decisions.length : ℚ) - st.decisions.length
        ≥ (tEnd - t0) / (cooldown + dt)) := by
  refine ⟨?_, ?_, ?_⟩
  · intro cooldown st now msg
    rcases hg : (isExclusion (get_snapshot now (update now msg st.bridge))
        && gapGtB now st.last_decision_time cooldown) with _ | _
    · left
      rw [loopCycle_skipped cooldown st now msg hg]
      exact ⟨rfl, rfl⟩
    · right
      have hg' := hg
      rw [Bool.and_eq_true] at hg'
      rw [loopCycle_triggered cooldown st now msg hg]
      exact ⟨hg'.1, (gapGtB_iff _ _ _).mp hg'.2, rfl, rfl⟩
  · intro cooldown a T b trace hC hT hwin
    have hchain := decChain_runLoop cooldown (initLoopState b) trace
      ⟨List.chain'_nil, Or.inl rfl⟩
    have hmem := runLoop_decisions_mem cooldown (initLoopState b) trace
    have hlen : (((runLoop cooldown (initLoopState b) trace).decisions.length : ℚ))
        ≤ T / cooldown + 1 := by
      apply chain_window_length cooldown a T hC hT _ hchain.1
      intro x hx
      rcases hmem x hx with h1 | h1
      · exact absurd h1 (by simp [initLoopState])
      · rw [List.mem_map] at h1
        obtain ⟨p, hp, hpx⟩ := h1
        rw [← hpx]
        exact hwin p hp
    have h2 : ((runLoop cooldown (initLoopState b) trace).decisions.length : ℚ) - 1
        ≤ T / cooldown := by linarith
    have h3 : (((runLoop cooldown (initLoopState b) trace).decisions.length : ℤ) - 1 : ℤ)
        ≤ ⌊T / cooldown⌋ := by
      rw [Int.le_floor]
      push_cast
      push_cast at h2
      linarith
    linarith
  · intro cooldown dt st trace t0 tEnd hC hdt h0 hEnd hTimes hPers hFirst
    have hCdt : (0:ℚ) < cooldown + dt := by linarith
    cases trace with
    | nil => simp at h0
    | cons p rest =>
      obtain ⟨u, m⟩ := p
      rw [List.map_cons, List.head?_cons, Option.some_inj] at h0
      subst t0
      rw [persistentExclusion, Bool.and_eq_true] at hPers
      have htr : (isExclusion (get_snapshot u (update u m st.bridge))
          && gapGtB u st.last_decision_time cooldown) = true := by
        rw [hPers.1, (gapGtB_iff _ _ _).mpr hFirst]
        rfl
      have hst' := loopCycle_triggered cooldown st u m htr
      rw [runLoop]
      cases rest with
      | nil =>
        rw [List.map_cons, List.map_nil, List.getLast?_singleton, Option.some_inj] at hEnd
        subst tEnd
        rw [runLoop, hst']
        dsimp only
        rw [List.length_append, List.length_singleton]
        push_cast
        have : (u - u) / (cooldown + dt) = 0 := by rw [sub_self, zero_div]
        rw [this]
        linarith
      | cons q rest' =>
        obtain ⟨v, m'⟩ := q
        rw [List.map_cons, List.map_cons] at hEnd hTimes
        rw [List.getLast?_cons_cons] at hEnd
        rw [timesWithin, Bool.and_eq_true, Bool.and_eq_true] at hTimes
        obtain ⟨⟨huv, hvd⟩, hTimes'⟩ := hTimes
        have hvd' : v - u ≤ dt := (gapLeB_iff v u dt).mp hvd
        have hPre' : v - (loopCycle cooldown st u m).last_decision_time ≤ cooldown + dt := by
          rw [hst']
          dsimp only
          linarith
        have hIH := runLoop_decisions_lower cooldown dt hC hdt ((v, m') :: rest')
          (loopCycle cooldown st u m) v tEnd
          (by rw [List.map_cons, List.head?_cons])
          (by rw [List.map_cons]; exact hEnd) hTimes' hPers.2 hPre'
        rw [hst'] at hIH
        rw [hst']
        dsimp only at hIH ⊢
        rw [List.length_append, List.length_singleton] at hIH
        push_cast at hIH ⊢
        have hmono : (tEnd - u) / (cooldown + dt)
            ≤ (tEnd - u - cooldown) / (cooldown + dt) + 1 := by
          have h1 : tEnd - u ≤ (tEnd - u - cooldown) + (cooldown + dt) := by linarith
          calc (tEnd - u) / (cooldown + dt)
              ≤ ((tEnd - u - cooldown) + (cooldown + dt)) / (cooldown + dt) :=
                (div_le_div_right hCdt).mpr h1
            _ = (tEnd - u - cooldown) / (cooldown + dt) + 1 := by
                rw [add_div, div_self (ne_of_gt hCdt)]
        linarith

/-- C5 witness: with cooldown 5, polls at 100 and 102 (δ = 2) under
persistent exclusion: the gating theorem's bounds apply; the window bound
holds for the sparse run over `[100, 200]` in a window of length 100. -/
theorem C5_cooldown_gating_witness :
    (((runLoop 5 (initLoopState (wait_for_heartbeat 0 initBridge))
        [(100, none), (200, none)]).decisions.length : ℤ) ≤ ⌊(100 : ℚ) / 5⌋ + 1)
    ∧ (((runLoop 5 (initLoopState (wait_for_heartbeat 0 initBridge))
        [(100, none), (102, none)]).decisions.length : ℚ)
        - (initLoopState (wait_for_heartbeat 0 initBridge)).decisions.length
      ≥ ((102 : ℚ) - 100) / (5 + 2)) :=
  ⟨C5_cooldown_gating.2.1 5 100 100 (wait_for_heartbeat 0 initBridge)
      [(100, none), (200, none)] (by decide) (by decide)
      (by
        intro p hp
        rcases List.mem_cons.mp hp with hp | hp
        · rw [hp]
          exact ⟨by decide, (gapLeB_iff 100 100 100).mp (by decide)⟩
        · rcases List.mem_cons.mp hp with hp | hp
          · rw [hp]
            exact ⟨by decide, (gapLeB_iff 200 100 100).mp (by decide)⟩
          · exact absurd hp (List.not_mem_nil p)),
   C5_cooldown_gating.2.2 5 2 (initLoopState (wait_for_heartbeat 0 initBridge))
      [(100, none), (102, none)] 100 102 (by decide) (by decide) (by decide) (by decide)
      (by decide) (by decide) ((gapGtB_iff 100 0 5).mp (by decide))⟩

theorem canonicalSerialization_has_telemetry_ref (m : Manifest) :
    ∃ pre post, canonicalSerialization m
      = pre ++ (serStr "telemetry_ref" ++ ": " ++ serStr m.telemetry_ref) ++ post := by
  have h1 : canonicalSerialization m
      = "\x7b" ++ ((serStr "agent_reasoning" ++ ": " ++ serJson (sortJson m.agent_reasoning)) ++ ", "
        ++ ((serStr "environment" ++ ": " ++ serStr m.environment) ++ ", "
        ++ ((serStr "epistemic_status" ++ ": " ++ serStr m.epistemic_status) ++ ", "
        ++ ((serStr "is_dark_window" ++ ": " ++ serJson (Json.bool m.is_dark_window)) ++ ", "
        ++ ((serStr "mission_id" ++ ": " ++ serStr m.mission_id) ++ ", "
        ++ ((serStr "sha256_proof" ++ ": " ++ serStr m.sha256_proof) ++ ", "
        ++ ((serStr "telemetry_ref" ++ ": " ++ serStr m.telemetry_ref) ++ ", "
        ++ ((serStr "timestamp" ++ ": " ++ serStr m.timestamp) ++ ", "
        ++ (serStr "trajectory_context" ++ ": " ++ serJson (sortJson m.trajectory_context)))))))))) ++ "\x7d" := rfl
  refine ⟨"\x7b" ++ serStr "agent_reasoning" ++ ": " ++ serJson (sortJson m.agent_reasoning) ++ ", "
      ++ serStr "environment" ++ ": " ++ serStr m.environment ++ ", "
      ++ serStr "epistemic_status" ++ ": " ++ serStr m.epistemic_status ++ ", "
      ++ serStr "is_dark_window" ++ ": " ++ serJson (Json.bool m.is_dark_window) ++ ", "
      ++ serStr "mission_id" ++ ": " ++ serStr m.mission_id ++ ", "
      ++ serStr "sha256_proof" ++ ": " ++ serStr m.sha256_proof ++ ", ",
    ", " ++ serStr "timestamp" ++ ": " ++ serStr m.timestamp ++ ", "
      ++ serStr "trajectory_context" ++ ": " ++ serJson (sortJson m.trajectory_context) ++ "\x7d", ?_⟩
  rw [h1]
  simp only [String.append_assoc]

/-- C10: every generated manifest carries a `telemetry_ref` field equal to
`"{mission_id}_telemetry.json"`; the field appears (key and value) inside
the canonical key-sorted serialization of the proof-cleared manifest, and
`sha256_proof` is the SHA-256 hex digest of exactly that serialization — so
an external verifier must include `telemetry_ref` to reproduce the proof. -/
theorem C10_telemetry_ref_hashed (outcome : InferenceOutcome)
    (timestamp mission_id environment : String) (telemetry : Json)
    (anomaly : String) (isolation : Bool) (trajectory : Option Json) :
    (generate_manifest outcome timestamp mission_id environment
        telemetry anomaly isolation trajectory).telemetry_ref
      = mission_id ++ "_telemetry.json"
    ∧ (∃ pre post, canonicalSerialization (clearProof (generate_manifest outcome
          timestamp mission_id environment telemetry anomaly isolation trajectory))
        = pre ++ (serStr "telemetry_ref" ++ ": "
            ++ serStr (mission_id ++ "_telemetry.json")) ++ post)
    ∧ (generate_manifest outcome timestamp mission_id environment
        telemetry anomaly isolation trajectory).sha256_proof
      = sha256hex (canonicalSerialization (clearProof (generate_manifest outcome
          timestamp mission_id environment telemetry anomaly isolation trajectory))) := by
  refine ⟨rfl, ?_, rfl⟩
  obtain ⟨pre, post, h⟩ := canonicalSerialization_has_telemetry_ref
    (clearProof (generate_manifest outcome timestamp mission_id environment
      telemetry anomaly isolation trajectory))
  exact ⟨pre, post, h⟩

end KidCosmo
